import Mathlib

/-!
Verification development for the school-payments reconciliation backend.

The definitions below are a shallow embedding of the TypeScript source:
  * `src/utils/payment-status.utils.ts` — `mapGatewayStatus`,
    `shouldUpdateStatus`, `extractPaymentMode`;
  * `src/webhooks/webhooks.service.ts` — `validateWebhookPayload`,
    `processWebhook`, `parseAmount`, `updatePaymentStatusFromWebhook`,
    `retryFailedWebhooks`.

JavaScript conventions modelled explicitly:
  * an absent / `undefined` / `null` field is `Option.none`;
  * `a || b` is truthiness-based choice (`""`, `0`, `undefined` are falsy);
  * loosely typed amounts are a `JSVal` (number, string, or undefined);
  * wall-clock time is an explicit `now : Int` (epoch milliseconds) argument;
    `new Date().toISOString()` is the opaque constructor `DateStr.isoOfNow`;
  * Mongo documents are records in explicit lists; `findOne` is `List.find?`
    (first match), `findByIdAndUpdate`/`create` are first-match replacement
    or append.
Bookkeeping that no claim touches (processing-duration fields) is omitted.
-/

/-- The canonical payment statuses of `payment-status.utils.ts`
(`type PaymentStatus = 'success' | 'pending' | 'failed' | 'cancelled'`). -/
inductive PaymentStatus where
  | success
  | pending
  | failed
  | cancelled
  deriving DecidableEq, Repr

/-- The string value of a canonical status, as it is stored and re-fed to
`mapGatewayStatus` when a normalizer output is reconciled. -/
def statusToString : PaymentStatus → String
  | .success => "success"
  | .pending => "pending"
  | .failed => "failed"
  | .cancelled => "cancelled"

/-- JS truthiness of an optional string: `undefined`/`null` and `""` are falsy. -/
def truthyS (x : Option String) : Bool :=
  match x with
  | none => false
  | some s => s ≠ ""

/-- `a || b` on optional strings. -/
def jsOrS (a b : Option String) : Option String :=
  if truthyS a then a else b

/-- `x || d` where the default is a plain string (e.g. `payload.error || 'N/A'`). -/
def strOrD (x : Option String) (d : String) : String :=
  match jsOrS x (some d) with
  | some s => s
  | none => d

/-- `x || null` (e.g. `orderInfo.order_id || null`). -/
def strOrNull (x : Option String) : Option String :=
  if truthyS x then x else none

/-- `String.prototype.toUpperCase`, modelled character-wise on ASCII. -/
def jsToUpper (s : String) : String :=
  ⟨s.data.map Char.toUpper⟩

/-- `mapGatewayStatus` from `payment-status.utils.ts`: guard on a falsy raw
status, uppercase, then match against the three fixed sets; the capture
sub-status parameter is accepted and ignored (`_captureStatus`). -/
def mapGatewayStatus (gatewayStatus : Option String) (_captureStatus : Option String) :
    PaymentStatus :=
  if ¬ truthyS gatewayStatus then .pending
  else
    let normalized := jsToUpper (gatewayStatus.getD "")
    if normalized = "SUCCESS" ∨ normalized = "COMPLETED" ∨ normalized = "PAID" then .success
    else if normalized = "FAILED" ∨ normalized = "DECLINED" ∨ normalized = "ERROR" then .failed
    else if normalized = "USER_DROPPED" ∨ normalized = "CANCELLED" ∨ normalized = "CANCELED" then
      .cancelled
    else .pending

/-- `shouldUpdateStatus` from `payment-status.utils.ts`: a falsy existing
status allows the update; a terminal existing status refuses it; anything
else (i.e. `pending`) allows it. The `incoming` argument is never inspected. -/
def shouldUpdateStatus (existing : Option PaymentStatus) (_incoming : PaymentStatus) : Bool :=
  match existing with
  | none => true
  | some e =>
    if e = .success ∨ e = .failed ∨ e = .cancelled then false
    else true

/-- The fields `extractPaymentMode` reads from its first argument:
`payment_mode`, `data?.payment_mode`, `payment_method`, `data?.payment_method`
(for a fallback argument only the first and third are ever read). -/
structure ModeSource where
  payment_mode : Option String
  data_payment_mode : Option String
  payment_method : Option String
  data_payment_method : Option String
  deriving DecidableEq, Repr

/-- `extractPaymentMode` from `payment-status.utils.ts`: the `||` chain
`data?.payment_mode || data?.data?.payment_mode || data?.payment_method ||
data?.data?.payment_method || fallback?.payment_mode || fallback?.payment_method
|| 'unknown'`. -/
def extractPaymentMode (d : ModeSource) (fallback : Option ModeSource) : String :=
  strOrD
    (jsOrS d.payment_mode
      (jsOrS d.data_payment_mode
        (jsOrS d.payment_method
          (jsOrS d.data_payment_method
            (jsOrS (fallback.bind (·.payment_mode)) (fallback.bind (·.payment_method)))))))
    "unknown"

/-- A loosely typed JS value as it occurs in amount fields: a number, a
string, or `undefined`. -/
inductive JSVal where
  | num (q : ℚ)
  | str (s : String)
  | undef
  deriving DecidableEq, Repr

/-- JS truthiness of a `JSVal`: `0`, `""` and `undefined` are falsy. -/
def JSVal.truthy : JSVal → Bool
  | .num q => q ≠ 0
  | .str s => s ≠ ""
  | .undef => false

/-- `a || b` on loosely typed values. -/
def jsOr (a b : JSVal) : JSVal :=
  if a.truthy then a else b

/-- Greedy digit prefix of a character list. -/
def takeDigits : List Char → List Char × List Char
  | [] => ([], [])
  | c :: rest =>
    if c.isDigit then
      let (ds, r) := takeDigits rest
      (c :: ds, r)
    else ([], c :: rest)

/-- Numeric value of a digit list. -/
def digitsToNat (ds : List Char) : ℕ :=
  ds.foldl (fun a c => 10 * a + (c.toNat - 48)) 0

/-- `Number.parseFloat`, modelled on plain decimal literals: an optional
sign, an integer digit run, an optional `.` plus fractional digit run, read
as the longest valid prefix; `none` models `NaN` (no leading digits at all).
Exponents, `Infinity` and leading whitespace are outside the model. -/
def jsParseFloat (s : String) : Option ℚ :=
  let cs := s.data
  let signed : ℚ × List Char :=
    match cs with
    | '-' :: r => (-1, r)
    | '+' :: r => (1, r)
    | _ => (1, cs)
  let (ip, rest) := takeDigits signed.2
  let fp : List Char :=
    match rest with
    | '.' :: r => (takeDigits r).1
    | _ => []
  if ip = [] ∧ fp = [] then none
  else some (signed.1 * ((digitsToNat ip : ℚ) + (digitsToNat fp : ℚ) / 10 ^ fp.length))

/-- `parseAmount` from `webhooks.service.ts`: a number passes through, a
string is `parseFloat`ed with `NaN` collapsed to `0`, anything else is `0`. -/
def parseAmount : JSVal → ℚ
  | .num q => q
  | .str s => (jsParseFloat s).getD 0
  | .undef => 0

/-- The amount-resolution chain of `updatePaymentStatusFromWebhook`
(lines 177-178): `orderInfo.order_amount || orderInfo.transaction_amount ||
order.amount || 0`, with JS truthiness deciding each fallthrough. -/
def resolveAmount (root alt stored : JSVal) : JSVal :=
  jsOr root (jsOr alt (jsOr stored (.num 0)))

/-- An opaque date-valued string: either a literal payload field or the
result of `new Date().toISOString()` at a given epoch-millisecond instant
(distinct instants give distinct strings). -/
inductive DateStr where
  | lit (s : String)
  | isoOfNow (t : Int)
  deriving DecidableEq, Repr

/-- JS truthiness of a date string (only a literal `""` is falsy). -/
def DateStr.truthy : DateStr → Bool
  | .lit s => s ≠ ""
  | .isoOfNow _ => true

/-- `field || new Date().toISOString()` as used by the normalizer. -/
def dateStrOr (x : Option String) (now : Int) : DateStr :=
  match x with
  | some s => if s ≠ "" then .lit s else .isoOfNow now
  | none => .isoOfNow now

/-- A stored JS `Date`: built from a date string or from epoch milliseconds. -/
inductive JsDate where
  | ofStr (d : DateStr)
  | ofMillis (t : Int)
  deriving DecidableEq, Repr

/-- `new Date(orderInfo.payment_time || Date.now())` (line 221). -/
def mkPaymentTime (pt : Option DateStr) (now : Int) : JsDate :=
  match pt with
  | some d => if d.truthy then .ofStr d else .ofMillis now
  | none => .ofMillis now

/-- The `data` sub-object of a Cashfree-format webhook payload, with the
fields `processWebhook` reads from it. -/
structure DataObj where
  order_id : Option String
  payment_status : Option String
  capture_status : Option String
  status : Option String
  payment_completion_time : Option String
  cf_payment_id : Option String
  payment_message : Option String
  failure_reason : Option String
  payment_mode : Option String
  payment_method : Option String
  deriving DecidableEq, Repr

/-- The `order_info` envelope of the third payload shape, with the fields
the normalizer spreads or reads. -/
structure OrderInfoObj where
  order_id : Option String
  amount : JSVal
  order_amount : JSVal
  transaction_amount : JSVal
  status : Option String
  capture_status : Option String
  gateway : Option String
  payment_mode : Option String
  payment_method : Option String
  payment_time : Option String
  bank_reference : Option String
  payment_message : Option String
  payment_msg : Option String
  error_message : Option String
  error : Option String
  gateway_status : Option String
  transaction_id : Option String
  deriving DecidableEq, Repr

/-- An inbound webhook payload: the union of root-level fields
`processWebhook` and `validateWebhookPayload` read across the three shapes. -/
structure Payload where
  data : Option DataObj
  order_id : Option String
  collect_request_id : Option String
  order_info : Option OrderInfoObj
  amount : JSVal
  am : JSVal
  order_amount : JSVal
  transaction_amount : JSVal
  status : Option String
  gateway : Option String
  payment_gateway : Option String
  payment_time : Option String
  transaction_id : Option String
  message : Option String
  error : Option String
  type : Option String
  payment_mode : Option String
  payment_method : Option String
  deriving DecidableEq, Repr

/-- The normalizer output (`orderInfo`), fed to
`updatePaymentStatusFromWebhook`; the in-memory `PaymentEvent`. -/
structure OrderInfo where
  order_id : Option String
  order_amount : JSVal
  transaction_amount : JSVal
  gateway : Option String
  status : Option String
  capture_status : Option String
  payment_mode : Option String
  payment_method : Option String
  payment_time : Option DateStr
  bank_reference : Option String
  payment_message : Option String
  payment_msg : Option String
  error_message : Option String
  error : Option String
  gateway_status : Option String
  transaction_id : Option String
  raw_payload : Option Payload
  deriving DecidableEq, Repr

/-- The `metadata` map of an Order: the cached provider identifiers the
resolver probes plus the fields `updatePaymentStatusFromWebhook` refreshes. -/
structure OrderMetadata where
  collectRequestId : Option String
  collect_id : Option String
  lastWebhookUpdate : Option Int
  paymentStatus : Option PaymentStatus
  bankReference : Option String
  amount : Option JSVal
  payment_mode : Option String
  transactionId : Option String
  deriving DecidableEq, Repr

/-- An Order document, restricted to the fields the webhook path reads. -/
structure Order where
  _id : String
  custom_order_id : Option String
  order_id : Option String
  student_info_custom_order_id : Option String
  amount : JSVal
  metadata : OrderMetadata
  deriving DecidableEq, Repr

/-- `mongoose.Types.ObjectId.isValid`, modelled on its hex form: exactly 24
hexadecimal characters. -/
def isValidObjectId (s : String) : Bool :=
  s.length == 24 && s.data.all (fun c => c.isDigit || ('a' ≤ c && c ≤ 'f') || ('A' ≤ c && c ≤ 'F'))

/-- The `$or` search of `updatePaymentStatusFromWebhook` (lines 151-160):
metadata caches, the internal reference, the `order_id` alias, the nested
student reference, and — only for a valid ObjectId — primary-key equality. -/
def orderMatches (key : Option String) (o : Order) : Bool :=
  o.metadata.collectRequestId == key ||
  o.metadata.collect_id == key ||
  o.custom_order_id == key ||
  o.order_id == key ||
  o.student_info_custom_order_id == key ||
  (match key with
   | some k => isValidObjectId k && o._id == k
   | none => false)

/-- A PaymentRecord (`OrderStatus` document): the `statusData` object built
at lines 213-228 of `webhooks.service.ts`. -/
structure OrderStatusRec where
  collect_id : String
  provider_collect_id : Option String
  custom_order_id : Option String
  order_amount : JSVal
  transaction_amount : JSVal
  status : PaymentStatus
  gateway_status : String
  payment_time : JsDate
  payment_mode : String
  payment_message : String
  bank_reference : String
  error_message : String
  capture_status : Option String
  payment_details : Payload ⊕ OrderInfo
  deriving DecidableEq, Repr

/-- The `ModeSource` view of a normalizer output (an `orderInfo` has no
`data` sub-object, so those probes are `undefined`). -/
def modeViewOfOrderInfo (ev : OrderInfo) : ModeSource :=
  { payment_mode := ev.payment_mode
    data_payment_mode := none
    payment_method := ev.payment_method
    data_payment_method := none }

/-- The `statusData` object (lines 213-228): every field of the upserted
PaymentRecord, with its `||`-default. -/
def mkStatusData (order : Order) (orderInfo : OrderInfo) (normalizedStatus : PaymentStatus)
    (resolvedOrderAmount resolvedTransactionAmount : JSVal) (now : Int) : OrderStatusRec :=
  { collect_id := order._id
    provider_collect_id := strOrNull orderInfo.order_id
    custom_order_id := order.custom_order_id
    order_amount := resolvedOrderAmount
    transaction_amount := resolvedTransactionAmount
    status := normalizedStatus
    gateway_status := strOrD (jsOrS orderInfo.gateway_status orderInfo.status) "N/A"
    payment_time := mkPaymentTime orderInfo.payment_time now
    payment_mode := extractPaymentMode (modeViewOfOrderInfo orderInfo) none
    payment_message := strOrD (jsOrS orderInfo.payment_message orderInfo.payment_msg) ""
    bank_reference := strOrD (jsOrS orderInfo.bank_reference orderInfo.transaction_id) "N/A"
    error_message := strOrD (jsOrS orderInfo.error_message orderInfo.error) "N/A"
    capture_status := strOrNull orderInfo.capture_status
    payment_details :=
      match orderInfo.raw_payload with
      | some p => .inl p
      | none => .inr orderInfo }

/-- The upsert of lines 231-235: update the found (first-matching)
PaymentRecord in place, or create one if none exists. -/
def upsertStatus (l : List OrderStatusRec) (oid : String) (v : OrderStatusRec) :
    List OrderStatusRec :=
  match l with
  | [] => [v]
  | r :: rest => if r.collect_id == oid then v :: rest else r :: upsertStatus rest oid v

/-- `orderModel.findByIdAndUpdate`: rewrite the first order with the given
primary key. -/
def updateOrderById (l : List Order) (oid : String) (f : Order → Order) : List Order :=
  match l with
  | [] => []
  | o :: rest => if o._id == oid then f o :: rest else o :: updateOrderById rest oid f

/-- The metadata refresh of lines 238-247. -/
def applyWebhookMetadata (statusData : OrderStatusRec) (resolvedOrderAmount : JSVal)
    (orderInfo : OrderInfo) (now : Int) (o : Order) : Order :=
  { o with metadata :=
    { o.metadata with
        lastWebhookUpdate := some now
        paymentStatus := some statusData.status
        bankReference := some statusData.bank_reference
        amount := some resolvedOrderAmount
        payment_mode := some statusData.payment_mode
        transactionId := strOrNull orderInfo.transaction_id } }

/-- The status carried by a reconciliation result: a canonical status, or
the literal `'order_not_found'` marker. -/
inductive ResultStatus where
  | stat (s : PaymentStatus)
  | order_not_found
  deriving DecidableEq, Repr

/-- The object `updatePaymentStatusFromWebhook` returns (all three return
sites share this shape; `previousStatus` is `undefined` on the
`order_not_found` path). -/
structure ReconcileResult where
  orderId : Option String
  customOrderId : Option String
  providerCollectId : Option String
  status : ResultStatus
  orderAmount : JSVal
  transactionAmount : JSVal
  previousStatus : Option PaymentStatus
  deriving DecidableEq, Repr

/-- The write path of `updatePaymentStatusFromWebhook` (lines 210-257):
build `statusData`, upsert the PaymentRecord, refresh the order metadata,
and return the normalized status together with the previous one. -/
def reconcileWrite (orders : List Order) (statuses : List OrderStatusRec) (order : Order)
    (orderInfo : OrderInfo) (normalizedStatus : PaymentStatus)
    (previousStatus : Option PaymentStatus)
    (resolvedOrderAmount resolvedTransactionAmount : JSVal) (now : Int) :
    ReconcileResult × List Order × List OrderStatusRec :=
  let statusData := mkStatusData order orderInfo normalizedStatus resolvedOrderAmount
    resolvedTransactionAmount now
  ({ orderId := some order._id
     customOrderId := order.custom_order_id
     providerCollectId := strOrNull orderInfo.order_id
     status := .stat normalizedStatus
     orderAmount := resolvedOrderAmount
     transactionAmount := resolvedTransactionAmount
     previousStatus := previousStatus },
   updateOrderById orders order._id
     (applyWebhookMetadata statusData resolvedOrderAmount orderInfo now),
   upsertStatus statuses order._id statusData)

/-- `updatePaymentStatusFromWebhook` (lines 149-262): resolve the order,
compute amounts and the normalized status, apply the downgrade guard, and
either return the previous status unchanged (soft no-op) or upsert. It
reads and writes only the order and PaymentRecord collections. -/
def updatePaymentStatusFromWebhook (orders : List Order) (statuses : List OrderStatusRec)
    (orderInfo : OrderInfo) (now : Int) :
    ReconcileResult × List Order × List OrderStatusRec :=
  match orders.find? (orderMatches orderInfo.order_id) with
  | none =>
    ({ orderId := orderInfo.order_id
       customOrderId := orderInfo.order_id
       providerCollectId := strOrNull orderInfo.order_id
       status := .order_not_found
       orderAmount := jsOr orderInfo.order_amount (.num 0)
       transactionAmount := jsOr orderInfo.transaction_amount (.num 0)
       previousStatus := none },
     orders, statuses)
  | some order =>
    let resolvedOrderAmount :=
      resolveAmount orderInfo.order_amount orderInfo.transaction_amount order.amount
    let resolvedTransactionAmount :=
      resolveAmount orderInfo.transaction_amount orderInfo.order_amount order.amount
    let normalizedStatus := mapGatewayStatus orderInfo.status orderInfo.capture_status
    match statuses.find? (fun r => r.collect_id == order._id) with
    | some existingOrderStatus =>
      if ¬ shouldUpdateStatus (some existingOrderStatus.status) normalizedStatus then
        ({ orderId := some order._id
           customOrderId := order.custom_order_id
           providerCollectId := strOrNull orderInfo.order_id
           status := .stat existingOrderStatus.status
           orderAmount := resolvedOrderAmount
           transactionAmount := resolvedTransactionAmount
           previousStatus := some existingOrderStatus.status },
         orders, statuses)
      else
        reconcileWrite orders statuses order orderInfo normalizedStatus
          (some existingOrderStatus.status) resolvedOrderAmount resolvedTransactionAmount now
    | none =>
      reconcileWrite orders statuses order orderInfo normalizedStatus none
        resolvedOrderAmount resolvedTransactionAmount now

/-- The `ModeSource` view of a payload root (`extractPaymentMode(payload, …)`
probes `payload.payment_mode`, `payload.data?.payment_mode`,
`payload.payment_method`, `payload.data?.payment_method`). -/
def modeViewOfPayload (p : Payload) : ModeSource :=
  { payment_mode := p.payment_mode
    data_payment_mode := p.data.bind (·.payment_mode)
    payment_method := p.payment_method
    data_payment_method := p.data.bind (·.payment_method) }

/-- The `ModeSource` view of a Cashfree `data` sub-object used as the
fallback argument of `extractPaymentMode(payload, data)`. -/
def modeViewOfData (d : DataObj) : ModeSource :=
  { payment_mode := d.payment_mode
    data_payment_mode := none
    payment_method := d.payment_method
    data_payment_method := none }

/-- The Cashfree-shape extraction of `processWebhook` (lines 51-68). -/
def cashfreeOrderInfo (payload : Payload) (data : DataObj) (now : Int) : OrderInfo :=
  { order_id := jsOrS data.order_id payload.collect_request_id
    order_amount := .num (parseAmount (jsOr payload.amount (jsOr payload.am payload.order_amount)))
    transaction_amount :=
      .num (parseAmount (jsOr payload.amount (jsOr payload.am payload.transaction_amount)))
    gateway := some "Cashfree"
    status := some (statusToString (mapGatewayStatus data.payment_status data.capture_status))
    capture_status := none
    payment_mode := some (extractPaymentMode (modeViewOfPayload payload) (some (modeViewOfData data)))
    payment_method := none
    payment_time := some (dateStrOr data.payment_completion_time now)
    bank_reference := some (strOrD data.cf_payment_id "")
    payment_message := some (strOrD (jsOrS data.payment_message payload.type) "")
    payment_msg := none
    error_message := some (strOrD data.failure_reason "N/A")
    error := none
    gateway_status := some (strOrD (jsOrS data.payment_status data.status) "N/A")
    transaction_id := data.cf_payment_id
    raw_payload := some payload }

/-- The flat legacy-shape extraction of `processWebhook` (lines 69-83). -/
def legacyOrderInfo (payload : Payload) (now : Int) : OrderInfo :=
  { order_id := jsOrS payload.collect_request_id payload.order_id
    order_amount := .num (parseAmount (jsOr payload.amount payload.order_amount))
    transaction_amount := .num (parseAmount (jsOr payload.amount payload.transaction_amount))
    gateway := some (strOrD (jsOrS payload.gateway payload.payment_gateway) "PhonePe")
    status := some (statusToString (mapGatewayStatus payload.status none))
    capture_status := none
    payment_mode := some (extractPaymentMode (modeViewOfPayload payload) none)
    payment_method := none
    payment_time := some (dateStrOr payload.payment_time now)
    bank_reference := some (strOrD payload.transaction_id "")
    payment_message := some (strOrD payload.message "")
    payment_msg := none
    error_message := some (strOrD payload.error "N/A")
    error := none
    gateway_status := none
    transaction_id := none
    raw_payload := some payload }

/-- The `order_info`-envelope extraction of `processWebhook` (lines 84-92):
spread the envelope, then overwrite the amounts and the normalized status. -/
def envelopeOrderInfo (payload : Payload) (oi : OrderInfoObj) : OrderInfo :=
  { order_id := oi.order_id
    order_amount := .num (parseAmount (jsOr oi.order_amount oi.amount))
    transaction_amount := .num (parseAmount (jsOr oi.transaction_amount oi.amount))
    gateway := oi.gateway
    status := some (statusToString (mapGatewayStatus oi.status oi.capture_status))
    capture_status := oi.capture_status
    payment_mode := oi.payment_mode
    payment_method := oi.payment_method
    payment_time := oi.payment_time.map .lit
    bank_reference := oi.bank_reference
    payment_message := oi.payment_message
    payment_msg := oi.payment_msg
    error_message := oi.error_message
    error := oi.error
    gateway_status := oi.gateway_status
    transaction_id := oi.transaction_id
    raw_payload := some payload }

/-- `validateWebhookPayload` plus the shape dispatch of `processWebhook`
(lines 23-29 and 46-95), as the fallible part of the handler: an error value
is a thrown `Error`'s message, caught at the handler boundary. -/
def parseOrderInfo (payload : Payload) (now : Int) : Except String OrderInfo :=
  if ¬ (payload.data.isSome || truthyS payload.order_id ||
        truthyS payload.collect_request_id || payload.order_info.isSome) then
    .error "Invalid webhook payload: missing required fields"
  else
    match payload.data with
    | some data => .ok (cashfreeOrderInfo payload data now)
    | none =>
      if truthyS payload.collect_request_id || truthyS payload.order_id then
        .ok (legacyOrderInfo payload now)
      else
        match payload.order_info with
        | some oi => .ok (envelopeOrderInfo payload oi)
        | none => .error "Invalid webhook payload format"

/-- Lifecycle states of a webhook ledger entry (`webhook-log.schema.ts`). -/
inductive LogStatus where
  | pending
  | processing
  | processed
  | failed
  | retrying
  deriving DecidableEq, Repr

/-- A `WebhookLog` document, restricted to the fields the service writes
or queries (duration bookkeeping omitted). -/
structure WebhookLog where
  webhook_id : String
  event_type : String
  payload : Payload
  headers : List (String × String)
  ip_address : String
  user_agent : String
  status : LogStatus
  error_message : Option String
  retry_count : ℕ
  next_retry_at : Option Int
  last_retry_at : Option Int
  processed_at : Option Int
  related_order_id : Option String
  deriving DecidableEq, Repr

/-- The persistent store the webhook path touches: the order collection,
the PaymentRecord (`order_status`) collection, and the webhook ledger. -/
structure Store where
  orders : List Order
  statuses : List OrderStatusRec
  logs : List WebhookLog
  deriving DecidableEq, Repr

/-- The `order` summary embedded in a successful webhook response
(lines 119-126). -/
structure OrderSummary where
  orderId : Option String
  customOrderId : Option String
  status : ResultStatus
  orderAmount : JSVal
  transactionAmount : JSVal
  previousStatus : Option PaymentStatus
  deriving DecidableEq, Repr

/-- The structured body `processWebhook` always returns
(`{ success, webhookId, message, order? }`). -/
structure WebhookResponse where
  success : Bool
  webhookId : String
  message : String
  order : Option OrderSummary
  deriving DecidableEq, Repr

/-- The generated ledger id `WH_${Date.now()}_${uuidv4().slice(0, 8)}`;
`nonce` stands for the uuid slice. -/
def mkWebhookId (now : Int) (nonce : String) : String :=
  "WH_" ++ toString now ++ "_" ++ nonce

/-- `processWebhook` (lines 31-138): open a ledger entry, normalize, run
reconciliation, close the entry (`processed`, or `failed` with the caught
error message), and always return a structured response. The intermediate
`pending`/`processing` ledger states are collapsed into the entry's final
state; the catch-all `try`/`except` is the `Except` match. -/
def processWebhook (st : Store) (payload : Payload) (headers : List (String × String))
    (ip : String) (now : Int) (nonce : String) : WebhookResponse × Store :=
  let webhookId := mkWebhookId now nonce
  let baseLog : WebhookLog :=
    { webhook_id := webhookId
      event_type := strOrD payload.type "payment_update"
      payload := payload
      headers := headers
      ip_address := ip
      user_agent := strOrD (headers.lookup "user-agent") "unknown"
      status := .pending
      error_message := none
      retry_count := 0
      next_retry_at := none
      last_retry_at := none
      processed_at := none
      related_order_id := none }
  match parseOrderInfo payload now with
  | .error msg =>
    ({ success := false, webhookId := webhookId, message := msg, order := none },
     { st with logs := st.logs ++ [{ baseLog with status := .failed, error_message := some msg }] })
  | .ok orderInfo =>
    let res := updatePaymentStatusFromWebhook st.orders st.statuses orderInfo now
    ({ success := true
       webhookId := webhookId
       message := "Webhook processed successfully"
       order := some
         { orderId := res.1.orderId
           customOrderId := res.1.customOrderId
           status := res.1.status
           orderAmount := res.1.orderAmount
           transactionAmount := res.1.transactionAmount
           previousStatus := res.1.previousStatus } },
     { orders := res.2.1
       statuses := res.2.2
       logs := st.logs ++
         [{ baseLog with
              status := .processed
              processed_at := some now
              related_order_id := res.1.orderId }] })

/-- `n` successive deliveries of the same payload in the same invocation
context. -/
def processIter (payload : Payload) (headers : List (String × String)) (ip : String)
    (now : Int) (nonce : String) : ℕ → Store → Store
  | 0, st => st
  | n + 1, st => processIter payload headers ip now nonce n
      (processWebhook st payload headers ip now nonce).2

/-- The selection predicate of the retry sweep (lines 350-353):
`{ status: 'failed', retry_count: { $lt: 3 } }`. -/
def retryEligible (e : WebhookLog) : Bool :=
  e.status == .failed && e.retry_count < 3

/-- `Math.pow(2, retryCount) * 5` (line 422), in minutes. -/
def backoffMinutes (retryCount : ℕ) : ℕ :=
  2 ^ retryCount * 5

/-- The renewed-failure branch of the sweep (lines 419-441): increment the
retry count and schedule the next retry `backoffMinutes * 60000` ms ahead. -/
def retryStepFail (e : WebhookLog) (errMsg : String) (now : Int) : WebhookLog :=
  let retryCount := e.retry_count + 1
  { e with
      retry_count := retryCount
      next_retry_at := some (now + (backoffMinutes retryCount : ℤ) * 60000)
      error_message := some errMsg
      last_retry_at := some now }

/-- The success branch of the sweep (lines 404-408). -/
def retryStepSuccess (e : WebhookLog) (now : Int) : WebhookLog :=
  { e with
      status := .processed
      processed_at := some now
      retry_count := e.retry_count + 1 }

/-- One entry's treatment by a sweep. `attempt` models the replayed
reconciliation attempt against the environment: `none` is success, `some m`
is a raised error with message `m` (in the source a renewed failure comes
from the persistence layer; the pure normalization logic itself is total). -/
def sweepOne (attempt : WebhookLog → Option String) (now : Int) (e : WebhookLog) : WebhookLog :=
  if retryEligible e then
    match attempt e with
    | none => retryStepSuccess e now
    | some m => retryStepFail e m now
  else e

/-- `retryFailedWebhooks` (lines 349-453) on the ledger: replay every
eligible entry, leaving the rest untouched. -/
def retryFailedWebhooks (logs : List WebhookLog) (attempt : WebhookLog → Option String)
    (now : Int) : List WebhookLog :=
  logs.map (sweepOne attempt now)

/-- The status mapping exactly as §4.3 of the spec words it: uppercase the
raw status and match against the three fixed sets, anything else —
including an empty or absent status — mapping to `pending`. -/
def specGatewayMap (raw : Option String) : PaymentStatus :=
  let u := jsToUpper (raw.getD "")
  if u = "SUCCESS" ∨ u = "COMPLETED" ∨ u = "PAID" then .success
  else if u = "FAILED" ∨ u = "DECLINED" ∨ u = "ERROR" then .failed
  else if u = "USER_DROPPED" ∨ u = "CANCELLED" ∨ u = "CANCELED" then .cancelled
  else .pending

/-- The amount chain exactly as the claim words it: coerce each candidate
to a number, skip candidates that fail to parse or are non-positive, first
strictly-positive value wins, else zero. -/
def specAmountChain (root alt stored : JSVal) : ℚ :=
  if 0 < parseAmount root then parseAmount root
  else if 0 < parseAmount alt then parseAmount alt
  else if 0 < parseAmount stored then parseAmount stored
  else 0

/-- The amended amount chain: the first truthy (non-zero, non-empty)
candidate wins unchanged — negative values included — else zero. -/
def firstTruthyAmount (root alt stored : JSVal) : JSVal :=
  (([root, alt, stored].find? JSVal.truthy).getD (.num 0))

/-- A payload with none of the shape-discriminating fields (concrete test
fixture). -/
def wEmptyPayload : Payload :=
  { data := none
    order_id := none
    collect_request_id := none
    order_info := none
    amount := .undef
    am := .undef
    order_amount := .undef
    transaction_amount := .undef
    status := none
    gateway := none
    payment_gateway := none
    payment_time := none
    transaction_id := none
    message := none
    error := none
    type := none
    payment_mode := none
    payment_method := none }

/-- A flat legacy-shape payload reporting a still-pending gateway status
for order reference `ORD1` (concrete test fixture). -/
def wPayloadPending : Payload :=
  { wEmptyPayload with
      collect_request_id := some "ORD1"
      status := some "PENDING"
      amount := .num 100 }

/-- An order with internal reference `ORD1` (concrete test fixture). -/
def wOrder : Order :=
  { _id := "ord1"
    custom_order_id := some "ORD1"
    order_id := none
    student_info_custom_order_id := none
    amount := .num 100
    metadata :=
      { collectRequestId := none
        collect_id := none
        lastWebhookUpdate := none
        paymentStatus := none
        bankReference := none
        amount := none
        payment_mode := none
        transactionId := none } }

/-- A PaymentRecord for `wOrder` already in the terminal state `success`
(concrete test fixture). -/
def wTerminalRec : OrderStatusRec :=
  { collect_id := "ord1"
    provider_collect_id := some "ORD1"
    custom_order_id := some "ORD1"
    order_amount := .num 100
    transaction_amount := .num 100
    status := .success
    gateway_status := "SUCCESS"
    payment_time := .ofMillis 0
    payment_mode := "upi"
    payment_message := ""
    bank_reference := "N/A"
    error_message := "N/A"
    capture_status := none
    payment_details := .inl wPayloadPending }

/-- An empty store (concrete test fixture). -/
def wStoreEmpty : Store :=
  { orders := [], statuses := [], logs := [] }

/-- A store holding `wOrder` and no PaymentRecord yet (concrete test
fixture). -/
def wStoreOrderOnly : Store :=
  { orders := [wOrder], statuses := [], logs := [] }

/-- A failed ledger entry that has never been retried (concrete test
fixture). -/
def wFailedLog : WebhookLog :=
  { webhook_id := "WH_0_n"
    event_type := "payment_update"
    payload := wEmptyPayload
    headers := []
    ip_address := "ip"
    user_agent := "unknown"
    status := .failed
    error_message := some "Invalid webhook payload: missing required fields"
    retry_count := 0
    next_retry_at := none
    last_retry_at := none
    processed_at := none
    related_order_id := none }

/-- Re-normalizing a canonical status string is the identity: the mapper
sends each stored status value back to itself. -/
theorem mapGatewayStatus_statusToString (s : PaymentStatus) (c : Option String) :
    mapGatewayStatus (some (statusToString s)) c = s := by
  cases s <;> rfl

/-- C2: the transition guard `shouldUpdateStatus(old, new)` returns true
exactly when the old status is absent or `pending`, and hence returns false
for every incoming status — including a differently-terminal one — whenever
the old status is `success`, `failed`, or `cancelled`. -/
theorem shouldUpdateStatus_true_iff (old : Option PaymentStatus) (new : PaymentStatus) :
    shouldUpdateStatus old new = true ↔ (old = none ∨ old = some .pending) := by
  cases old with
  | none => simp [shouldUpdateStatus]
  | some s => cases s <;> simp [shouldUpdateStatus]

/-- C3: for every raw gateway status, `mapGatewayStatus` agrees with the
spec's mapping — uppercase the input, send {SUCCESS, COMPLETED, PAID} to
success, {FAILED, DECLINED, ERROR} to failed, {USER_DROPPED, CANCELLED,
CANCELED} to cancelled, and everything else (empty and absent inputs
included) to pending. -/
theorem mapGatewayStatus_eq_specGatewayMap (g c : Option String) :
    mapGatewayStatus g c = specGatewayMap g := by
  cases g with
  | none => rfl
  | some s =>
    by_cases hs : s = ""
    · subst hs; rfl
    · simp [mapGatewayStatus, specGatewayMap, truthyS, hs]

/-- C10: the status mapper ignores its capture sub-status argument — any
two capture values yield the same result — and in particular a SUCCESS
gateway status with a pending capture sub-status still maps to success. -/
theorem mapGatewayStatus_capture_independent :
    (∀ (s c c' : Option String), mapGatewayStatus s c = mapGatewayStatus s c') ∧
    mapGatewayStatus (some "SUCCESS") (some "PENDING") = .success :=
  ⟨fun _ _ _ => rfl, by decide⟩

/-- C5 counterexample: the claim's chain semantics — skip non-positive
candidates, first strictly-positive wins — is false on the code: a negative
root amount is truthy, so it wins even though a positive candidate follows.
At root `-5`, alternate `0`, stored `100` the code resolves `-5`, the
claimed chain resolves `100`. -/
theorem resolveAmount_negative_cex :
    ¬ (resolveAmount (.num (-5)) (.num 0) (.num 100) =
        .num (specAmountChain (.num (-5)) (.num 0) (.num 100))) := by
  simp [resolveAmount, specAmountChain, jsOr, JSVal.truthy, parseAmount]
  norm_num

/-- C5 amended: the resolution chain returns the first truthy (non-zero)
candidate of root → alternate → order's stored amount, else zero — a
candidate that is absent, zero, or a failed parse (coerced to 0) is
skipped, but a negative candidate is not; in particular a non-numeric root
amount (parsing to 0) with a valid amount in the fallback field resolves to
the fallback value, not zero. -/
theorem resolveAmount_first_truthy :
    (∀ (r a s : JSVal), resolveAmount r a s = firstTruthyAmount r a s) ∧
    parseAmount (.str "abc") = 0 ∧
    resolveAmount (.num (parseAmount (.str "abc"))) (.num 150) (.num 7) = .num 150 := by
  refine ⟨fun r a s => ?_, ?_, ?_⟩
  · by_cases hr : r.truthy <;> by_cases ha : a.truthy <;> by_cases hs : s.truthy <;>
      simp [resolveAmount, firstTruthyAmount, jsOr, List.find?, hr, ha, hs]
  · simp [parseAmount, jsParseFloat, takeDigits]
  · simp [resolveAmount, jsOr, JSVal.truthy, parseAmount, jsParseFloat, takeDigits]

/-- C1: once an order's PaymentRecord is terminal (success, failed, or
cancelled), reconciling any further event for that order through
`updatePaymentStatusFromWebhook` leaves the order and PaymentRecord
collections unchanged, and the returned result carries the stored terminal
status as both its `status` and its `previousStatus`. -/
theorem terminal_status_frozen (orders : List Order) (statuses : List OrderStatusRec)
    (ev : OrderInfo) (now : Int) (o : Order) (r : OrderStatusRec)
    (ho : orders.find? (orderMatches ev.order_id) = some o)
    (hr : statuses.find? (fun x => x.collect_id == o._id) = some r)
    (ht : r.status = .success ∨ r.status = .failed ∨ r.status = .cancelled) :
    (updatePaymentStatusFromWebhook orders statuses ev now).2.1 = orders ∧
    (updatePaymentStatusFromWebhook orders statuses ev now).2.2 = statuses ∧
    (updatePaymentStatusFromWebhook orders statuses ev now).1.status = .stat r.status ∧
    (updatePaymentStatusFromWebhook orders statuses ev now).1.previousStatus = some r.status := by
  have hguard : shouldUpdateStatus (some r.status)
      (mapGatewayStatus ev.status ev.capture_status) = false := by
    rcases ht with h | h | h <;> simp [shouldUpdateStatus, h]
  simp [updatePaymentStatusFromWebhook, ho, hr, hguard]

/-- C1 witness: a concrete store whose PaymentRecord for `ORD1` is already
`success` absorbs a later pending event without any change. -/
theorem terminal_status_frozen_witness :
    ([wOrder].find? (orderMatches (legacyOrderInfo wPayloadPending 5).order_id) = some wOrder) ∧
    ([wTerminalRec].find? (fun x => x.collect_id == wOrder._id) = some wTerminalRec) ∧
    (wTerminalRec.status = .success ∨ wTerminalRec.status = .failed ∨
      wTerminalRec.status = .cancelled) ∧
    ((updatePaymentStatusFromWebhook [wOrder] [wTerminalRec]
        (legacyOrderInfo wPayloadPending 5) 5).2.1 = [wOrder] ∧
     (updatePaymentStatusFromWebhook [wOrder] [wTerminalRec]
        (legacyOrderInfo wPayloadPending 5) 5).2.2 = [wTerminalRec] ∧
     (updatePaymentStatusFromWebhook [wOrder] [wTerminalRec]
        (legacyOrderInfo wPayloadPending 5) 5).1.status = .stat wTerminalRec.status ∧
     (updatePaymentStatusFromWebhook [wOrder] [wTerminalRec]
        (legacyOrderInfo wPayloadPending 5) 5).1.previousStatus = some wTerminalRec.status) :=
  ⟨by decide, by decide, by decide,
   terminal_status_frozen [wOrder] [wTerminalRec] (legacyOrderInfo wPayloadPending 5) 5
     wOrder wTerminalRec (by decide) (by decide) (by decide)⟩

/-- C6: for every payload, headers, and source ip, `processWebhook` returns
a structured response rather than propagating a failure: the fallible
normalization/reconciliation path is caught at the handler boundary
(`processWebhook` is a total function of its inputs), the response always
carries the generated webhookId and a message, and it embeds an order
summary (with its `previousStatus` field) exactly on success. -/
theorem processWebhook_structured_response (st : Store) (p : Payload)
    (headers : List (String × String)) (ip : String) (now : Int) (nonce : String) :
    (processWebhook st p headers ip now nonce).1.webhookId = mkWebhookId now nonce ∧
    ((processWebhook st p headers ip now nonce).1.success = true ↔
      ((processWebhook st p headers ip now nonce).1.order).isSome) := by
  cases hp : parseOrderInfo p now with
  | error msg => simp [processWebhook, hp]
  | ok ev => simp [processWebhook, hp]

/-- C7: a payload matching none of the three shapes (no `data` sub-object,
no truthy top-level `order_id` or `collect_request_id`, no `order_info`
envelope) yields a `failed` ledger entry carrying the validation error
message and a `success:false` response with that message — no exception
reaches the caller. -/
theorem unknown_shape_rejected (st : Store) (p : Payload) (headers : List (String × String))
    (ip : String) (now : Int) (nonce : String)
    (h1 : p.data = none) (h2 : ¬ truthyS p.order_id) (h3 : ¬ truthyS p.collect_request_id)
    (h4 : p.order_info = none) :
    (processWebhook st p headers ip now nonce).1.success = false ∧
    (processWebhook st p headers ip now nonce).1.message =
      "Invalid webhook payload: missing required fields" ∧
    ∃ e, (processWebhook st p headers ip now nonce).2.logs = st.logs ++ [e] ∧
      e.status = .failed ∧
      e.error_message = some "Invalid webhook payload: missing required fields" := by
  have hp : parseOrderInfo p now = .error "Invalid webhook payload: missing required fields" := by
    simp [parseOrderInfo, h1, h2, h3, h4]
  refine ⟨?_, ?_, ?_⟩ <;> simp [processWebhook, hp]

/-- C7 witness: the all-empty payload against the empty store. -/
theorem unknown_shape_rejected_witness :
    (wEmptyPayload.data = none) ∧ (¬ truthyS wEmptyPayload.order_id) ∧
    (¬ truthyS wEmptyPayload.collect_request_id) ∧ (wEmptyPayload.order_info = none) ∧
    ((processWebhook wStoreEmpty wEmptyPayload [] "ip" 0 "n").1.success = false ∧
     (processWebhook wStoreEmpty wEmptyPayload [] "ip" 0 "n").1.message =
       "Invalid webhook payload: missing required fields" ∧
     ∃ e, (processWebhook wStoreEmpty wEmptyPayload [] "ip" 0 "n").2.logs =
         wStoreEmpty.logs ++ [e] ∧
       e.status = .failed ∧
       e.error_message = some "Invalid webhook payload: missing required fields") :=
  ⟨by decide, by decide, by decide, by decide,
   unknown_shape_rejected wStoreEmpty wEmptyPayload [] "ip" 0 "n"
     (by decide) (by decide) (by decide) (by decide)⟩

/-- C8: an event whose reference resolves no order under any of the
resolver's lookup keys produces a non-fatal `order_not_found` result with
both collections untouched, and the webhook's ledger entry still closes as
`processed` (not `failed`) with a `success:true` response. -/
theorem order_not_found_nonfatal (st : Store) (p : Payload) (headers : List (String × String))
    (ip : String) (now : Int) (nonce : String) (ev : OrderInfo)
    (hp : parseOrderInfo p now = .ok ev)
    (hmiss : st.orders.find? (orderMatches ev.order_id) = none) :
    (updatePaymentStatusFromWebhook st.orders st.statuses ev now).1.status = .order_not_found ∧
    (updatePaymentStatusFromWebhook st.orders st.statuses ev now).2.1 = st.orders ∧
    (updatePaymentStatusFromWebhook st.orders st.statuses ev now).2.2 = st.statuses ∧
    (processWebhook st p headers ip now nonce).1.success = true ∧
    ∃ e, (processWebhook st p headers ip now nonce).2.logs = st.logs ++ [e] ∧
      e.status = .processed := by
  refine ⟨?_, ?_, ?_, ?_, ?_⟩ <;>
    simp [processWebhook, hp, updatePaymentStatusFromWebhook, hmiss]

/-- C8 witness: a pending legacy event for `ORD1` delivered against the
empty store. -/
theorem order_not_found_nonfatal_witness :
    (parseOrderInfo wPayloadPending 0 = .ok (legacyOrderInfo wPayloadPending 0)) ∧
    (wStoreEmpty.orders.find?
      (orderMatches (legacyOrderInfo wPayloadPending 0).order_id) = none) ∧
    ((updatePaymentStatusFromWebhook wStoreEmpty.orders wStoreEmpty.statuses
        (legacyOrderInfo wPayloadPending 0) 0).1.status = .order_not_found ∧
     (updatePaymentStatusFromWebhook wStoreEmpty.orders wStoreEmpty.statuses
        (legacyOrderInfo wPayloadPending 0) 0).2.1 = wStoreEmpty.orders ∧
     (updatePaymentStatusFromWebhook wStoreEmpty.orders wStoreEmpty.statuses
        (legacyOrderInfo wPayloadPending 0) 0).2.2 = wStoreEmpty.statuses ∧
     (processWebhook wStoreEmpty wPayloadPending [] "ip" 0 "n").1.success = true ∧
     ∃ e, (processWebhook wStoreEmpty wPayloadPending [] "ip" 0 "n").2.logs =
         wStoreEmpty.logs ++ [e] ∧ e.status = .processed) :=
  ⟨rfl, rfl,
   order_not_found_nonfatal wStoreEmpty wPayloadPending [] "ip" 0 "n"
     (legacyOrderInfo wPayloadPending 0) rfl rfl⟩

/-- C9: the retry sweep selects exactly the `failed` ledger entries with
retry count below 3 and leaves all others untouched; a renewed failure
increments the retry count and schedules `next_retry_at` at the sweep time
plus the base delay (5 minutes) times `2 ^ retryCount`; three consecutive
failures of one fresh entry schedule delays of 10, 20, then 40 minutes
(doubling, strictly increasing), after which the entry is still `failed`,
is no longer eligible, and any further sweep leaves it byte-for-byte
unchanged — no further retry is ever scheduled. -/
theorem retry_backoff_schedule (e : WebhookLog) (m1 m2 m3 : String) (t1 t2 t3 : Int)
    (h0 : e.status = .failed) (hrc : e.retry_count = 0) :
    (∀ (x : WebhookLog), retryEligible x = true ↔ (x.status = .failed ∧ x.retry_count < 3)) ∧
    (∀ (x : WebhookLog) (attempt : WebhookLog → Option String) (now : Int),
        retryEligible x = false → sweepOne attempt now x = x) ∧
    (∀ (x : WebhookLog) (msg : String) (now : Int),
        (retryStepFail x msg now).retry_count = x.retry_count + 1 ∧
        (retryStepFail x msg now).next_retry_at =
          some (now + (2 ^ (x.retry_count + 1) * 5 : ℕ) * 60000) ∧
        (retryStepFail x msg now).status = x.status) ∧
    (retryStepFail e m1 t1).next_retry_at = some (t1 + 10 * 60000) ∧
    (retryStepFail (retryStepFail e m1 t1) m2 t2).next_retry_at = some (t2 + 20 * 60000) ∧
    (retryStepFail (retryStepFail (retryStepFail e m1 t1) m2 t2) m3 t3).next_retry_at =
      some (t3 + 40 * 60000) ∧
    retryEligible e = true ∧
    retryEligible (retryStepFail e m1 t1) = true ∧
    retryEligible (retryStepFail (retryStepFail e m1 t1) m2 t2) = true ∧
    retryEligible (retryStepFail (retryStepFail (retryStepFail e m1 t1) m2 t2) m3 t3) = false ∧
    (retryStepFail (retryStepFail (retryStepFail e m1 t1) m2 t2) m3 t3).status = .failed ∧
    (∀ (attempt : WebhookLog → Option String) (now : Int),
        sweepOne attempt now
          (retryStepFail (retryStepFail (retryStepFail e m1 t1) m2 t2) m3 t3) =
        retryStepFail (retryStepFail (retryStepFail e m1 t1) m2 t2) m3 t3) := by
  have hr1 : (retryStepFail e m1 t1).retry_count = e.retry_count + 1 := rfl
  have hr2 : (retryStepFail (retryStepFail e m1 t1) m2 t2).retry_count =
      e.retry_count + 1 + 1 := rfl
  have hr3 : (retryStepFail (retryStepFail (retryStepFail e m1 t1) m2 t2) m3 t3).retry_count =
      e.retry_count + 1 + 1 + 1 := rfl
  have hs1 : (retryStepFail e m1 t1).status = e.status := rfl
  have hs2 : (retryStepFail (retryStepFail e m1 t1) m2 t2).status = e.status := rfl
  have hs3 : (retryStepFail (retryStepFail (retryStepFail e m1 t1) m2 t2) m3 t3).status =
      e.status := rfl
  have hn1 : (retryStepFail e m1 t1).next_retry_at =
      some (t1 + (backoffMinutes (e.retry_count + 1) : ℤ) * 60000) := rfl
  have hn2 : (retryStepFail (retryStepFail e m1 t1) m2 t2).next_retry_at =
      some (t2 + (backoffMinutes ((retryStepFail e m1 t1).retry_count + 1) : ℤ) * 60000) := rfl
  have hn3 : (retryStepFail (retryStepFail (retryStepFail e m1 t1) m2 t2) m3 t3).next_retry_at =
      some (t3 + (backoffMinutes
        ((retryStepFail (retryStepFail e m1 t1) m2 t2).retry_count + 1) : ℤ) * 60000) := rfl
  refine ⟨?_, ?_, ?_, ?_, ?_, ?_, ?_, ?_, ?_, ?_, ?_, ?_⟩
  · intro x
    constructor
    · intro hx
      simp [retryEligible] at hx
      exact hx
    · intro hx
      simp [retryEligible, hx.1, hx.2]
  · intro x attempt now hx
    simp [sweepOne, hx]
  · intro x msg now
    refine ⟨rfl, ?_, rfl⟩
    simp [retryStepFail, backoffMinutes]
  · rw [hn1, hrc]
    norm_num [backoffMinutes]
  · rw [hn2, hr1, hrc]
    norm_num [backoffMinutes]
  · rw [hn3, hr2, hrc]
    norm_num [backoffMinutes]
  · simp [retryEligible, h0, hrc]
  · simp [retryEligible, hs1, hr1, h0, hrc]
  · simp [retryEligible, hs2, hr2, h0, hrc]
  · simp [retryEligible, hs3, hr3, h0, hrc]
  · rw [hs3, h0]
  · intro attempt now
    have hineligible : retryEligible
        (retryStepFail (retryStepFail (retryStepFail e m1 t1) m2 t2) m3 t3) = false := by
      simp [retryEligible, hs3, hr3, h0, hrc]
    simp [sweepOne, hineligible]

/-- C9 witness: a fresh failed entry swept (and failing again) at times 0,
100 and 200 collects delays of 10, 20 and 40 minutes and then becomes
permanently ineligible. -/
theorem retry_backoff_schedule_witness :
    wFailedLog.status = .failed ∧ wFailedLog.retry_count = 0 ∧
    (retryStepFail wFailedLog "err" 0).next_retry_at = some (0 + 10 * 60000) ∧
    (retryStepFail (retryStepFail wFailedLog "err" 0) "err" 100).next_retry_at =
      some (100 + 20 * 60000) ∧
    (retryStepFail (retryStepFail (retryStepFail wFailedLog "err" 0) "err" 100)
      "err" 200).next_retry_at = some (200 + 40 * 60000) ∧
    retryEligible (retryStepFail (retryStepFail (retryStepFail wFailedLog "err" 0) "err" 100)
      "err" 200) = false := by
  have h := retry_backoff_schedule wFailedLog "err" "err" "err" 0 100 200 (by decide) (by decide)
  exact ⟨by decide, by decide, h.2.2.2.1, h.2.2.2.2.1, h.2.2.2.2.2.1,
    h.2.2.2.2.2.2.2.2.2.1⟩

/-- A metadata refresh never touches the fields the resolver probes: the
refreshed order matches exactly the keys the original matched, so a
first-match lookup that found `o` finds, after the refresh, either `o`
itself or its refreshed copy. -/
theorem find?_updateOrderById (l : List Order) (oid : String) (f : Order → Order)
    (p : Order → Bool) (hf : ∀ x, p (f x) = p x) (o : Order) (ho : l.find? p = some o) :
    (updateOrderById l oid f).find? p = some o ∨
    (updateOrderById l oid f).find? p = some (f o) := by
  induction l with
  | nil => simp at ho
  | cons a rest ih =>
    simp only [updateOrderById]
    by_cases hid : (a._id == oid) = true
    · rw [if_pos hid]
      cases hpa : p a with
      | true =>
        rw [List.find?_cons_of_pos _ hpa] at ho
        injection ho with ho
        subst ho
        right
        rw [List.find?_cons_of_pos _ (by rw [hf]; exact hpa)]
      | false =>
        rw [List.find?_cons_of_neg _ (by simp [hpa])] at ho
        left
        rw [List.find?_cons_of_neg _ (by simp [hf, hpa]), ho]
    · rw [if_neg hid]
      cases hpa : p a with
      | true =>
        rw [List.find?_cons_of_pos _ hpa] at ho
        injection ho with ho
        subst ho
        left
        rw [List.find?_cons_of_pos _ hpa]
      | false =>
        rw [List.find?_cons_of_neg _ (by simp [hpa])] at ho
        rcases ih ho with h | h
        · left
          rw [List.find?_cons_of_neg _ (by simp [hpa]), h]
        · right
          rw [List.find?_cons_of_neg _ (by simp [hpa]), h]

/-- After an upsert keyed by `oid`, the first record with that key is the
upserted value. -/
theorem find?_upsertStatus (l : List OrderStatusRec) (oid : String) (v : OrderStatusRec)
    (hv : v.collect_id = oid) :
    (upsertStatus l oid v).find? (fun r => r.collect_id == oid) = some v := by
  induction l with
  | nil => simp [upsertStatus, List.find?, hv]
  | cons r rest ih =>
    simp only [upsertStatus]
    by_cases hr : (r.collect_id == oid) = true
    · rw [if_pos hr]
      rw [List.find?_cons_of_pos _ (by simp [hv])]
    · rw [if_neg hr]
      rw [List.find?_cons_of_neg _ (by simp_all)]
      exact ih

/-- Upserting the same record twice equals upserting it once. -/
theorem upsertStatus_idem (l : List OrderStatusRec) (oid : String) (v : OrderStatusRec)
    (hv : v.collect_id = oid) :
    upsertStatus (upsertStatus l oid v) oid v = upsertStatus l oid v := by
  induction l with
  | nil => simp [upsertStatus, hv]
  | cons r rest ih =>
    by_cases hr : (r.collect_id == oid) = true
    · simp only [upsertStatus]
      rw [if_pos hr]
      simp only [upsertStatus]
      rw [if_pos (by simp [hv])]
    · simp only [upsertStatus]
      rw [if_neg hr]
      simp only [upsertStatus]
      rw [if_neg hr, ih]

/-- Re-applying an idempotent, key-preserving per-document update is a
no-op. -/
theorem updateOrderById_idem (l : List Order) (oid : String) (f : Order → Order)
    (hff : ∀ x, f (f x) = f x) (hfid : ∀ x, (f x)._id = x._id) :
    updateOrderById (updateOrderById l oid f) oid f = updateOrderById l oid f := by
  induction l with
  | nil => rfl
  | cons a rest ih =>
    by_cases hid : (a._id == oid) = true
    · simp only [updateOrderById]
      rw [if_pos hid]
      simp only [updateOrderById]
      rw [if_pos (by rw [hfid]; exact hid), hff]
    · simp only [updateOrderById]
      rw [if_neg hid]
      simp only [updateOrderById]
      rw [if_neg hid, ih]

/-- Reconciling the same event again, immediately after a write of its
`statusData`, leaves both collections exactly as written: the rewritten
record equals the first one, and a terminal first write blocks the second
via the downgrade guard. -/
theorem recon_after_write (ev : OrderInfo) (now : Int) (os : List Order)
    (ss : List OrderStatusRec) (o : Order) (sd : OrderStatusRec) (f : Order → Order)
    (ho : os.find? (orderMatches ev.order_id) = some o)
    (hsd : sd = mkStatusData o ev (mapGatewayStatus ev.status ev.capture_status)
      (resolveAmount ev.order_amount ev.transaction_amount o.amount)
      (resolveAmount ev.transaction_amount ev.order_amount o.amount) now)
    (hf : f = applyWebhookMetadata sd
      (resolveAmount ev.order_amount ev.transaction_amount o.amount) ev now) :
    (updatePaymentStatusFromWebhook (updateOrderById os o._id f) (upsertStatus ss o._id sd)
        ev now).2 = (updateOrderById os o._id f, upsertStatus ss o._id sd) := by
  have hpres : ∀ x, orderMatches ev.order_id (f x) = orderMatches ev.order_id x := by
    intro x; rw [hf]
    rfl
  have hfid : ∀ x, (f x)._id = x._id := by
    intro x; rw [hf]
    rfl
  have hfcust : ∀ x, (f x).custom_order_id = x.custom_order_id := by
    intro x; rw [hf]
    rfl
  have hfamount : ∀ x, (f x).amount = x.amount := by
    intro x; rw [hf]
    rfl
  have hff : ∀ x, f (f x) = f x := by
    intro x; rw [hf]
    rfl
  have hsd_cid : sd.collect_id = o._id := by
    rw [hsd]
    rfl
  have hsd_status : sd.status = mapGatewayStatus ev.status ev.capture_status := by
    rw [hsd]
    rfl
  rcases find?_updateOrderById os o._id f (orderMatches ev.order_id) hpres o ho with h2 | h2
  · have hfind_s : (upsertStatus ss o._id sd).find? (fun r => r.collect_id == o._id) = some sd :=
      find?_upsertStatus ss o._id sd hsd_cid
    simp only [updatePaymentStatusFromWebhook, h2, hfind_s]
    by_cases hguard :
        shouldUpdateStatus (some sd.status) (mapGatewayStatus ev.status ev.capture_status) = true
    · rw [if_neg (not_not_intro hguard)]
      simp only [reconcileWrite]
      rw [← hsd, ← hf]
      rw [upsertStatus_idem ss o._id sd hsd_cid, updateOrderById_idem os o._id f hff hfid]
    · rw [if_pos hguard]
  · have hfind_s : (upsertStatus ss o._id sd).find? (fun r => r.collect_id == (f o)._id) =
        some sd := by
      rw [hfid]
      exact find?_upsertStatus ss o._id sd hsd_cid
    simp only [updatePaymentStatusFromWebhook, h2, hfind_s]
    by_cases hguard :
        shouldUpdateStatus (some sd.status) (mapGatewayStatus ev.status ev.capture_status) = true
    · rw [if_neg (not_not_intro hguard)]
      simp only [reconcileWrite]
      have hsd2 : mkStatusData (f o) ev (mapGatewayStatus ev.status ev.capture_status)
          (resolveAmount ev.order_amount ev.transaction_amount o.amount)
          (resolveAmount ev.transaction_amount ev.order_amount o.amount) now = sd := by
        rw [hsd]
        simp [mkStatusData, hfid, hfcust]
      rw [hfamount, hfid]
      rw [hsd2, ← hf]
      rw [upsertStatus_idem ss o._id sd hsd_cid, updateOrderById_idem os o._id f hff hfid]
    · rw [if_pos hguard]

/-- One reconciliation of an event is a fixed point: running
`updatePaymentStatusFromWebhook` again on the store it produced changes
nothing. -/
theorem recon_snd_idem (ev : OrderInfo) (now : Int) (os : List Order) (ss : List OrderStatusRec) :
    (updatePaymentStatusFromWebhook
        (updatePaymentStatusFromWebhook os ss ev now).2.1
        (updatePaymentStatusFromWebhook os ss ev now).2.2 ev now).2 =
      (updatePaymentStatusFromWebhook os ss ev now).2 := by
  cases hfo : os.find? (orderMatches ev.order_id) with
  | none =>
    simp only [updatePaymentStatusFromWebhook, hfo]
  | some o =>
    cases hfs : ss.find? (fun r => r.collect_id == o._id) with
    | none =>
      simp only [updatePaymentStatusFromWebhook, hfo, hfs]
      exact recon_after_write ev now os ss o _ _ hfo rfl rfl
    | some ex =>
      by_cases hguard : shouldUpdateStatus (some ex.status)
          (mapGatewayStatus ev.status ev.capture_status) = true
      · simp only [updatePaymentStatusFromWebhook, hfo, hfs]
        rw [if_neg (not_not_intro hguard)]
        exact recon_after_write ev now os ss o _ _ hfo rfl rfl
      · simp [updatePaymentStatusFromWebhook, hfo, hfs, hguard]

/-- Replaying a payload in the same invocation context right after a first
delivery leaves the PaymentRecord collection unchanged. -/
theorem processWebhook_twice_statuses (st : Store) (p : Payload)
    (headers : List (String × String)) (ip : String) (now : Int) (nonce : String) :
    ((processWebhook (processWebhook st p headers ip now nonce).2 p headers ip now nonce).2).statuses =
      ((processWebhook st p headers ip now nonce).2).statuses := by
  cases hp : parseOrderInfo p now with
  | error msg => simp [processWebhook, hp]
  | ok ev =>
    have h := recon_snd_idem ev now st.orders st.statuses
    simp [processWebhook, hp]
    exact congrArg Prod.snd h

/-- C4 counterexample: replaying the identical payload is not idempotent
across invocation times. A pending legacy payload carrying no
`payment_time` of its own, delivered at time 0 and replayed at time 1
against a store holding its order, leaves a PaymentRecord whose
`payment_time` was refreshed to the replay instant — the final
PaymentRecord collection after two applications differs from the one after
one application. -/
theorem processWebhook_replay_time_cex :
    ¬ (((processWebhook (processWebhook wStoreOrderOnly wPayloadPending [] "ip" 0 "a").2
        wPayloadPending [] "ip" 1 "b").2).statuses =
       ((processWebhook wStoreOrderOnly wPayloadPending [] "ip" 0 "a").2).statuses) := by decide

/-- C4 amended: replaying an identical webhook payload N ≥ 1 times in the
same invocation context (same wall-clock instant, so the same
`Date.now()`-derived payment time) produces exactly the same final
PaymentRecord collection as applying it once; across differing instants
only the wall-clock-derived `payment_time` of a non-terminal record can
change. -/
theorem processWebhook_replay_idempotent (st : Store) (p : Payload)
    (headers : List (String × String)) (ip : String) (now : Int) (nonce : String)
    (n : ℕ) (h : 1 ≤ n) :
    (processIter p headers ip now nonce n st).statuses =
      ((processWebhook st p headers ip now nonce).2).statuses := by
  obtain ⟨m, rfl⟩ : ∃ m, n = m + 1 := ⟨n - 1, (Nat.succ_pred_eq_of_pos h).symm⟩
  clear h
  induction m generalizing st with
  | zero => rfl
  | succ k ih =>
    have hstep : processIter p headers ip now nonce (k + 1 + 1) st =
        processIter p headers ip now nonce (k + 1) (processWebhook st p headers ip now nonce).2 :=
      rfl
    rw [hstep, ih, processWebhook_twice_statuses]

/-- C4 amended witness: three deliveries of the pending legacy payload at
one instant give the same PaymentRecord collection as one delivery. -/
theorem processWebhook_replay_idempotent_witness :
    1 ≤ 3 ∧
    (processIter wPayloadPending [] "ip" 0 "a" 3 wStoreOrderOnly).statuses =
      ((processWebhook wStoreOrderOnly wPayloadPending [] "ip" 0 "a").2).statuses :=
  ⟨by decide,
   processWebhook_replay_idempotent wStoreOrderOnly wPayloadPending [] "ip" 0 "a" 3 (by decide)⟩
